import Mathlib

/-!

Ben-Or style binary consensus node — verification of the specification.

This file gives a shallow embedding of the consensus node implemented in
`src/nodes/node.ts` and proves or refutes the frozen claims about it.

The node keeps a `NodeState` record (`killed`, `x`, `decided`, `k`), a
per-round buffer of received votes (`receivedMessages`), and exposes the
routes `/message`, `/stop` and `/start`.  The `/start` route runs the
Ben-Or round loop: broadcast the current belief to every other node,
wait, tally the buffered votes for the round (discarding abstains,
majority wins, ties broken by a random bit), and decide when at least
`N - F` numeric votes equal the new belief; after `MAX_STEPS = 2` rounds
without a decision it forces `x = 1, decided = true, k = 2`.

Concurrency is embedded explicitly: an `Env` record gives, for each
round, the buffer contents observed at tally time (`sched`), the random
bit used on a tie (`coin`), and whether a `/stop` request lands during
the round's broadcast/collect window (`stopDuring`) — the only points of
the loop at which the single-threaded event loop can interleave another
request.

-/

namespace BenOr

/-- Vote values of the protocol: `0`, `1`, or the abstain marker `"?"`
(the TypeScript type `Value = 0 | 1 | "?"`). -/
inductive Value where
  | zero
  | one
  | abstain
deriving DecidableEq, Repr

/-- Convert the random bit produced by `randomBit()` to a vote value. -/
def ofBit (b : Bool) : Value :=
  if b then Value.one else Value.zero

/-- The mutable state of one node (the TypeScript `NodeState`):
`killed`, current belief `x`, `decided` flag and round counter `k`.
The latter three are `null` (here `none`) for faulty or killed nodes. -/
structure NodeState where
  killed : Bool
  x : Option Value
  decided : Option Bool
  k : Option Nat
deriving DecidableEq, Repr

/-- The state a node is initialized with: faulty nodes get null belief,
decided flag and round counter; correct nodes start with the given
initial value, `decided = false` and `k = 0`. -/
def initState (isFaulty : Bool) (initialValue : Value) : NodeState :=
  { killed := false
  , x := if isFaulty then none else some initialValue
  , decided := if isFaulty then none else some false
  , k := if isFaulty then none else some 0 }

/-- The state left behind by the `/stop` route: `killed = true` and all
other fields nulled. -/
def stopState : NodeState :=
  { killed := true, x := none, decided := none, k := none }

/-- Response of the `/stop` route.  The route unconditionally answers
`200 {status: "stopped"}`; it has no error path at all, so the response
type has a single constructor. -/
inductive StopResponse where
  | stopped
deriving DecidableEq, Repr

/-- The `/stop` route: set `killed = true`, null out `x`, `decided`, `k`
and acknowledge.  It ignores the previous state entirely. -/
def stop (_st : NodeState) : StopResponse × NodeState :=
  (StopResponse.stopped, stopState)

/-- The per-node vote buffer (`receivedMessages`), kept as the ordered
log of `(step, value)` pairs appended by the `/message` route. -/
abbrev VoteBuffer := List (Nat × Value)

/-- Votes buffered for round `r` (the list `receivedMessages[r]`). -/
def messagesForRound (buf : VoteBuffer) (r : Nat) : List Value :=
  (buf.filter (fun p => p.1 == r)).map Prod.snd

/-- Response of the `/message` route: acknowledgement, or the
`400 {error: "Node is stopped"}` rejection. -/
inductive MessageResponse where
  | received
  | stoppedError
deriving DecidableEq, Repr

/-- The `/message` route: reject with the stopped error when the node is
killed, otherwise append the vote to the buffer for its round. -/
def message (st : NodeState) (buf : VoteBuffer) (step : Nat) (value : Value) :
    MessageResponse × VoteBuffer :=
  if st.killed then
    (MessageResponse.stoppedError, buf)
  else
    (MessageResponse.received, buf ++ [(step, value)])

/-- Numeric votes among a list of messages: abstains (`"?"`) filtered
out (`messages.filter((v) => v !== "?")`). -/
def numericVotes (msgs : List Value) : List Value :=
  msgs.filter (fun v => v != Value.abstain)

/-- The tally step of one round: count numeric votes for `1` and for
`0`; the strict majority side becomes the new belief, a tie (including
no votes at all) is broken by the random bit. -/
def tallyBelief (msgs : List Value) (coin : Bool) : Value :=
  let nv := numericVotes msgs
  let countOnes := (nv.filter (fun v => v == Value.one)).length
  let countZeros := (nv.filter (fun v => v == Value.zero)).length
  if countZeros < countOnes then Value.one
  else if countOnes < countZeros then Value.zero
  else ofBit coin

/-- Number of numeric votes equal to `v` among `msgs` (the `countX`
computation of the decide step). -/
def countEq (msgs : List Value) (v : Value) : Nat :=
  ((numericVotes msgs).filter (fun w => w == v)).length

/-- One vote message dispatched during broadcast: receiving node, round
index (`step`) and carried belief. -/
structure Sent where
  recipient : Nat
  round : Nat
  value : Option Value
deriving DecidableEq, Repr

/-- The broadcast step of round `r`: one message carrying the current
belief to every index `i ≠ nodeId` below `N`. -/
def broadcastMsgs (nodeId N r : Nat) (x : Option Value) : List Sent :=
  ((List.range N).filter (fun i => i != nodeId)).map
    (fun i => { recipient := i, round := r, value := x })

/-- The environment of one `/start` run: for each round, the buffer
contents read at tally time, the random bit used on a tie, and whether a
`/stop` request is processed during the round's broadcast/collection
window (the only interleaving points of the single-threaded loop). -/
structure Env where
  sched : Nat → List Value
  coin : Nat → Bool
  stopDuring : Nat → Bool

/-- The round loop of `/start` over the given list of round indices.
Each round: break if killed, record the round in `k`, broadcast the
current belief, possibly suffer an interleaved `/stop`, tally the
buffered votes into a new belief, and decide when at least `N - F`
numeric votes equal the new belief.  Returns the final state and the
list of all dispatched vote messages. -/
def roundsLoop (nodeId N F : Nat) (env : Env) :
    List Nat → NodeState → NodeState × List Sent
  | [], st => (st, [])
  | r :: rest, st =>
    if st.killed then (st, [])
    else
      let sent := broadcastMsgs nodeId N r st.x
      let st2 := if env.stopDuring r then stopState else { st with k := some r }
      let nb := tallyBelief (env.sched r) (env.coin r)
      let st3 := { st2 with x := some nb }
      if N - F ≤ countEq (env.sched r) nb then
        ({ st3 with decided := some true }, sent)
      else
        let res := roundsLoop nodeId N F env rest st3
        (res.1, sent ++ res.2)

/-- Response of the `/start` route: the stopped rejection, the faulty
non-participation report, the infeasibility ("no finality") report, or
the normal completion report. -/
inductive StartResponse where
  | stoppedError
  | faultyNotParticipating
  | noFinality
  | finished
deriving DecidableEq, Repr

/-- Result of one `/start` run: the HTTP response, the node state after
the run, and every vote message dispatched during the run. -/
structure StartResult where
  resp : StartResponse
  state : NodeState
  sent : List Sent
deriving DecidableEq, Repr

/-- The round cap (`MAX_STEPS` in the source): the loop runs rounds `0`
and `1` only. -/
def MAX_STEPS : Nat := 2

/-- The `/start` route.  Killed nodes are rejected; faulty nodes null
their state and report non-participation; if `F > N / 2` (over the
rationals, i.e. `N < 2 * F`) the node reports no finality with
`decided = false`, the sentinel round `k = 11`, belief defaulted to `1`
if unset, and `killed = true`; otherwise the round loop runs and, if it
ends without `decided = true`, the fallback forces
`x = 1, decided = true, k = MAX_STEPS`. -/
def start (nodeId N F : Nat) (isFaulty : Bool) (st : NodeState) (env : Env) :
    StartResult :=
  if st.killed then
    { resp := StartResponse.stoppedError, state := st, sent := [] }
  else if isFaulty then
    { resp := StartResponse.faultyNotParticipating
    , state := { st with x := none, decided := none, k := none }
    , sent := [] }
  else if N < 2 * F then
    let st1 := { st with decided := some false, k := some 11 }
    let st2 := if st1.x = none then { st1 with x := some Value.one } else st1
    { resp := StartResponse.noFinality
    , state := { st2 with killed := true }
    , sent := [] }
  else
    let res := roundsLoop nodeId N F env (List.range MAX_STEPS) st
    if res.1.decided ≠ some true then
      { resp := StartResponse.finished
      , state := { res.1 with x := some Value.one, decided := some true, k := some MAX_STEPS }
      , sent := res.2 }
    else
      { resp := StartResponse.finished, state := res.1, sent := res.2 }

/-- An environment in which no votes arrive, the coin always falls on
`0`, and no stop request interleaves. -/
def envEmpty : Env :=
  { sched := fun _ => [], coin := fun _ => false, stopDuring := fun _ => false }

/-- An environment in which no votes arrive and a `/stop` request is
processed during round 0's broadcast/collection window. -/
def envStopRound0 : Env :=
  { sched := fun _ => [], coin := fun _ => false, stopDuring := fun r => r == 0 }

/-- The environment seen in scenario A (N = 4, F = 1, beliefs 0,0,0,1)
by a node that starts with belief 0: in round 0 it receives the votes of
its three peers (`0`, `0`, `1`); in round 1 the node that already
decided stays silent, so only the two other belief-0 nodes' votes
arrive. -/
def envScenarioAZero : Env :=
  { sched := fun r =>
      if r == 0 then [Value.zero, Value.zero, Value.one]
      else if r == 1 then [Value.zero, Value.zero]
      else []
  , coin := fun _ => false
  , stopDuring := fun _ => false }

/-- The environment seen in scenario A by the node that starts with
belief 1: in round 0 it receives the three `0` votes of its peers. -/
def envScenarioAOne : Env :=
  { sched := fun r => if r == 0 then [Value.zero, Value.zero, Value.zero] else []
  , coin := fun _ => false
  , stopDuring := fun _ => false }

/-- An environment delivering two `0` votes in round 0 and nothing
afterwards. -/
def envTwoZeros : Env :=
  { sched := fun r => if r == 0 then [Value.zero, Value.zero] else []
  , coin := fun _ => false
  , stopDuring := fun _ => false }

end BenOr

namespace BenOr

/-- C9: the stop operation is idempotent: a first stop leaves
`killed = true` with belief, decided flag and round nulled and answers
the (sole, non-error) confirmation; a second stop, or a stop after any
other evolution of the state, leaves the state exactly as the first stop
left it. -/
theorem claim_C9 :
    (∀ st : NodeState,
      (stop st).2 = { killed := true, x := none, decided := none, k := none } ∧
      (stop st).1 = StopResponse.stopped) ∧
    (∀ st : NodeState, stop (stop st).2 = stop st) := by
  constructor
  · intro st
    exact ⟨rfl, rfl⟩
  · intro st
    rfl

/-- C7: an incoming vote delivered to a killed node is rejected with the
explicit stopped error, is not appended to the vote buffer, and leaves
the buffered votes of every round unchanged. -/
theorem claim_C7 (st : NodeState) (buf : VoteBuffer) (step : Nat) (v : Value)
    (hk : st.killed = true) :
    (message st buf step v).1 = MessageResponse.stoppedError ∧
    (message st buf step v).2 = buf ∧
    ∀ r, messagesForRound (message st buf step v).2 r = messagesForRound buf r := by
  simp [message, hk]

/-- The round loop breaks immediately on a killed node: state unchanged
and nothing broadcast. -/
lemma roundsLoop_killed (nodeId N F : Nat) (env : Env) (rounds : List Nat)
    (st : NodeState) (h : st.killed = true) :
    roundsLoop nodeId N F env rounds st = (st, []) := by
  cases rounds with
  | nil => rfl
  | cons r rest => simp [roundsLoop, h]

/-- On the feasible path, when the loop ends without `decided = true`,
`start` applies the forced fallback to the loop's final state. -/
lemma start_run_fallback (nodeId N F : Nat) (st : NodeState) (env : Env)
    (hk : st.killed = false) (hF : 2 * F ≤ N)
    (hnd : (roundsLoop nodeId N F env (List.range MAX_STEPS) st).1.decided ≠ some true) :
    start nodeId N F false st env =
      { resp := StartResponse.finished
      , state := { (roundsLoop nodeId N F env (List.range MAX_STEPS) st).1 with
                   x := some Value.one, decided := some true, k := some MAX_STEPS }
      , sent := (roundsLoop nodeId N F env (List.range MAX_STEPS) st).2 } := by
  have hnotlt : ¬ (N < 2 * F) := Nat.not_lt.mpr hF
  simp [start, hk, hnotlt, hnd]

/-- On the feasible path, when the loop ends with `decided = true`,
`start` returns the loop's final state unchanged. -/
lemma start_run_decided (nodeId N F : Nat) (st : NodeState) (env : Env)
    (hk : st.killed = false) (hF : 2 * F ≤ N)
    (hd : (roundsLoop nodeId N F env (List.range MAX_STEPS) st).1.decided = some true) :
    start nodeId N F false st env =
      { resp := StartResponse.finished
      , state := (roundsLoop nodeId N F env (List.range MAX_STEPS) st).1
      , sent := (roundsLoop nodeId N F env (List.range MAX_STEPS) st).2 } := by
  have hnotlt : ¬ (N < 2 * F) := Nat.not_lt.mpr hF
  simp [start, hk, hnotlt, hd]

/-- Any run of the round loop from a live state ends with a round
counter that is `none` or at most `1` (the last loop round). -/
lemma roundsLoop_k_le (nodeId N F : Nat) (env : Env) (st : NodeState)
    (hk : st.killed = false) :
    (roundsLoop nodeId N F env (List.range MAX_STEPS) st).1.k.getD 0 ≤ 1 := by
  have hr : List.range MAX_STEPS = [0, 1] := rfl
  rw [hr]
  by_cases h0 : env.stopDuring 0 <;>
  by_cases hd0 : N - F ≤ countEq (env.sched 0) (tallyBelief (env.sched 0) (env.coin 0)) <;>
  by_cases h1 : env.stopDuring 1 <;>
  by_cases hd1 : N - F ≤ countEq (env.sched 1) (tallyBelief (env.sched 1) (env.coin 1)) <;>
  simp [roundsLoop, hk, h0, hd0, h1, hd1, stopState]

/-- C5: in every round's tally, abstain votes are discarded and the new
belief is the value with strictly more numeric votes (counts taken with
`List.count` over the abstain-free list); on an exact tie — in
particular when no vote at all was received — the new belief is the
outcome of the coin flip. -/
theorem claim_C5 :
    (∀ (msgs : List Value) (c : Bool),
      tallyBelief msgs c =
        if (numericVotes msgs).count Value.zero < (numericVotes msgs).count Value.one
          then Value.one
        else if (numericVotes msgs).count Value.one < (numericVotes msgs).count Value.zero
          then Value.zero
        else ofBit c) ∧
    (∀ c : Bool, tallyBelief [] c = ofBit c) := by
  constructor
  · intro msgs c
    simp only [tallyBelief, List.count, List.countP_eq_length_filter]
  · intro c
    rfl

/-- C2: when `F > N / 2`, a non-faulty, non-killed node that calls
`/start` immediately ends with `decided = false`, the sentinel round
`k = 11`, `killed = true`, belief defaulted to `1` exactly when it was
unset, and broadcasts nothing; and the sentinel exceeds every round
value reachable by a normal (feasible) run, whose round counter never
exceeds `MAX_STEPS = 2 < 11`. -/
theorem claim_C2 (nodeId N F : Nat) (st : NodeState) (env : Env)
    (id₂ N₂ F₂ : Nat) (st₂ : NodeState) (env₂ : Env)
    (hk : st.killed = false) (hF : N < 2 * F)
    (hk₂ : st₂.killed = false) (hF₂ : 2 * F₂ ≤ N₂) :
    start nodeId N F false st env =
      { resp := StartResponse.noFinality
      , state := { killed := true
                 , x := if st.x = none then some Value.one else st.x
                 , decided := some false
                 , k := some 11 }
      , sent := [] } ∧
    (start id₂ N₂ F₂ false st₂ env₂).state.k.getD 0 < 11 := by
  constructor
  · by_cases hx : st.x = none <;> simp [start, hk, hF, hx]
  · by_cases hd : (roundsLoop id₂ N₂ F₂ env₂ (List.range MAX_STEPS) st₂).1.decided = some true
    · rw [start_run_decided id₂ N₂ F₂ st₂ env₂ hk₂ hF₂ hd]
      have hle := roundsLoop_k_le id₂ N₂ F₂ env₂ st₂ hk₂
      exact lt_of_le_of_lt hle (by decide)
    · rw [start_run_fallback id₂ N₂ F₂ st₂ env₂ hk₂ hF₂ hd]
      exact (by decide : MAX_STEPS < 11)

/-- Witness for C2: N = 3, F = 2 is infeasible; N = 2, F = 1 runs
normally and ends below the sentinel. -/
theorem claim_C2_witness :
    start 0 3 2 false (initState false Value.one) envEmpty =
      { resp := StartResponse.noFinality
      , state := { killed := true
                 , x := if (initState false Value.one).x = none then some Value.one
                        else (initState false Value.one).x
                 , decided := some false
                 , k := some 11 }
      , sent := [] } ∧
    (start 0 2 1 false (initState false Value.zero) envEmpty).state.k.getD 0 < 11 :=
  claim_C2 0 3 2 (initState false Value.one) envEmpty
    0 2 1 (initState false Value.zero) envEmpty rfl (by decide) rfl (by decide)

/-- C4: when `F ≤ N / 2`, a non-faulty, non-killed node that calls
`/start` always ends with `decided = true`, with a round counter within
the cap `MAX_STEPS = 2`, whatever votes arrive and even if stopped
mid-run; and whenever the round loop ends without an earlier decision,
the terminal state is the fallback `x = 1, decided = true,
k = MAX_STEPS`. -/
theorem claim_C4 (nodeId N F : Nat) (st : NodeState) (env : Env)
    (id₂ N₂ F₂ : Nat) (st₂ : NodeState) (env₂ : Env)
    (hk : st.killed = false) (hF : 2 * F ≤ N)
    (hk₂ : st₂.killed = false) (hF₂ : 2 * F₂ ≤ N₂)
    (hnd : (roundsLoop id₂ N₂ F₂ env₂ (List.range MAX_STEPS) st₂).1.decided ≠ some true) :
    (start nodeId N F false st env).state.decided = some true ∧
    (start nodeId N F false st env).state.k.getD 0 ≤ MAX_STEPS ∧
    (start id₂ N₂ F₂ false st₂ env₂).state =
      { killed := (roundsLoop id₂ N₂ F₂ env₂ (List.range MAX_STEPS) st₂).1.killed
      , x := some Value.one
      , decided := some true
      , k := some MAX_STEPS } := by
  refine ⟨?_, ?_, ?_⟩
  · by_cases hd : (roundsLoop nodeId N F env (List.range MAX_STEPS) st).1.decided = some true
    · rw [start_run_decided nodeId N F st env hk hF hd]
      exact hd
    · rw [start_run_fallback nodeId N F st env hk hF hd]
  · by_cases hd : (roundsLoop nodeId N F env (List.range MAX_STEPS) st).1.decided = some true
    · rw [start_run_decided nodeId N F st env hk hF hd]
      have hle := roundsLoop_k_le nodeId N F env st hk
      exact le_trans hle (by decide)
    · rw [start_run_fallback nodeId N F st env hk hF hd]
      exact (by decide : MAX_STEPS ≤ MAX_STEPS)
  · rw [start_run_fallback id₂ N₂ F₂ st₂ env₂ hk₂ hF₂ hnd]

/-- Witness for C4: N = 2, F = 1 with no delivered votes decides via the
round-0 supermajority over the empty responding set is impossible, so
both groups exercise the fallback; hypotheses checked at concrete
inputs. -/
theorem claim_C4_witness :
    (start 0 2 1 false (initState false Value.one) envEmpty).state.decided = some true ∧
    (start 0 2 1 false (initState false Value.one) envEmpty).state.k.getD 0 ≤ MAX_STEPS ∧
    (start 0 2 0 false (initState false Value.zero) envEmpty).state =
      { killed := (roundsLoop 0 2 0 envEmpty (List.range MAX_STEPS)
                    (initState false Value.zero)).1.killed
      , x := some Value.one
      , decided := some true
      , k := some MAX_STEPS } :=
  claim_C4 0 2 1 (initState false Value.one) envEmpty
    0 2 0 (initState false Value.zero) envEmpty rfl (by decide) rfl (by decide) (by decide)

/-- When the round loop ends with `decided = true` and a non-null round
counter `r`, the decision was made by the in-loop supermajority check at
round `r`: the final belief is some `v` with at least `N - F` numeric
votes equal to `v` among the votes buffered for round `r`. -/
lemma roundsLoop_decide_count (nodeId N F : Nat) (env : Env) (st : NodeState) (r : Nat)
    (hk : st.killed = false) (hd : st.decided ≠ some true)
    (h1 : (roundsLoop nodeId N F env (List.range MAX_STEPS) st).1.decided = some true)
    (h2 : (roundsLoop nodeId N F env (List.range MAX_STEPS) st).1.k = some r) :
    ∃ v, (roundsLoop nodeId N F env (List.range MAX_STEPS) st).1.x = some v ∧
      N - F ≤ countEq (env.sched r) v := by
  have hr : List.range MAX_STEPS = [0, 1] := rfl
  rw [hr] at h1 h2 ⊢
  by_cases h0 : env.stopDuring 0
  · by_cases hd0 : N - F ≤ countEq (env.sched 0) (tallyBelief (env.sched 0) (env.coin 0))
    · -- decided during round 0 right after an interleaved stop: k is none
      simp [roundsLoop, hk, h0, hd0, stopState] at h2
    · -- stopped during round 0, loop breaks at round 1 still undecided
      simp [roundsLoop, hk, h0, hd0, stopState] at h1
  · by_cases hd0 : N - F ≤ countEq (env.sched 0) (tallyBelief (env.sched 0) (env.coin 0))
    · -- decided at round 0: k = 0 and the belief is round 0's tally
      have hr0 : r = 0 := by
        simp [roundsLoop, hk, h0, hd0] at h2
        omega
      subst hr0
      refine ⟨tallyBelief (env.sched 0) (env.coin 0), ?_, hd0⟩
      simp [roundsLoop, hk, h0, hd0]
    · by_cases h1' : env.stopDuring 1
      · by_cases hd1 : N - F ≤ countEq (env.sched 1) (tallyBelief (env.sched 1) (env.coin 1))
        · -- decided during round 1 right after an interleaved stop: k is none
          simp [roundsLoop, hk, h0, hd0, h1', hd1, stopState] at h2
        · -- stopped during round 1, never decided
          simp [roundsLoop, hk, h0, hd0, h1', hd1, stopState] at h1
      · by_cases hd1 : N - F ≤ countEq (env.sched 1) (tallyBelief (env.sched 1) (env.coin 1))
        · -- decided at round 1: k = 1 and the belief is round 1's tally
          have hr1 : r = 1 := by
            simp [roundsLoop, hk, h0, hd0, h1', hd1] at h2
            omega
          subst hr1
          refine ⟨tallyBelief (env.sched 1) (env.coin 1), ?_, hd1⟩
          simp [roundsLoop, hk, h0, hd0, h1', hd1]
        · -- both rounds ran without deciding: the decided flag is unchanged
          simp [roundsLoop, hk, h0, hd0, h1', hd1] at h1
          exact absurd h1 hd

/-- C1 as stated is refuted by the forced fallback: with N = 2, F = 0
and no votes delivered, `start` terminates with `decided = true`, belief
`1` at round `2`, yet the buffer for round 2 holds no numeric vote equal
to `1` at all — fewer than N − F = 2. -/
theorem claim_C1_counterexample :
    (start 0 2 0 false (initState false Value.zero) envEmpty).state.decided = some true ∧
    (start 0 2 0 false (initState false Value.zero) envEmpty).state.x = some Value.one ∧
    (start 0 2 0 false (initState false Value.zero) envEmpty).state.k = some 2 ∧
    countEq (envEmpty.sched 2) Value.one < 2 - 0 := by
  refine ⟨rfl, rfl, rfl, by decide⟩

/-- C1 amended: if a non-faulty participant that had not yet decided
runs `/start` on a feasible configuration and terminates with
`decided = true`, belief `v` and round `r` strictly below the round cap
(that is, the decision came from the supermajority check, not from the
forced fallback), then the votes buffered for round `r` contained at
least `N − F` numeric votes equal to `v`. -/
theorem claim_C1 (nodeId N F : Nat) (st : NodeState) (env : Env) (r : Nat) (v : Value)
    (hk : st.killed = false) (hd : st.decided = some false) (hF : 2 * F ≤ N)
    (h1 : (start nodeId N F false st env).state.decided = some true)
    (h2 : (start nodeId N F false st env).state.k = some r)
    (hr : r < MAX_STEPS)
    (hx : (start nodeId N F false st env).state.x = some v) :
    N - F ≤ countEq (env.sched r) v := by
  by_cases hld : (roundsLoop nodeId N F env (List.range MAX_STEPS) st).1.decided = some true
  · rw [start_run_decided nodeId N F st env hk hF hld] at h1 h2 hx
    have hd' : st.decided ≠ some true := by rw [hd]; simp
    obtain ⟨v', hv', hc⟩ := roundsLoop_decide_count nodeId N F env st r hk hd' h1 h2
    rw [hx] at hv'
    obtain rfl : v = v' := by simpa using hv'
    exact hc
  · rw [start_run_fallback nodeId N F st env hk hF hld] at h2
    simp only [StartResult.state] at h2
    have : MAX_STEPS = r := by simpa using h2
    omega

/-- Witness for C1: N = 2, F = 0, two `0` votes buffered for round 0;
the node decides belief `0` at round 0 and indeed 2 ≥ N − F numeric `0`
votes were buffered. -/
theorem claim_C1_witness :
    2 - 0 ≤ countEq (envTwoZeros.sched 0) Value.zero :=
  claim_C1 0 2 0 (initState false Value.zero) envTwoZeros 0 Value.zero
    rfl rfl (by decide) (by decide) (by decide) (by decide) (by decide)

/-- C3: the cancellation contract is broken by the fallback.  A node
(here N = 3, F = 1, fresh belief 0, no votes delivered) that processes a
`/stop` during round 0 — which sets `killed = true` and nulls `x`,
`decided`, `k` — observes `killed` at the start of round 1 and breaks,
but the post-loop fallback then mutates the killed node's state to
`x = 1, decided = true, k = 2` instead of leaving it at the stop
state. -/
theorem claim_C3 :
    (start 0 3 1 false (initState false Value.zero) envStopRound0).state =
      { killed := true, x := some Value.one, decided := some true, k := some 2 } ∧
    stopState = { killed := true, x := none, decided := none, k := none } := by
  constructor
  · rfl
  · rfl

/-- C6 as stated is refuted: in scenario A (N = 4, F = 1, four live
nodes, beliefs 0, 0, 0, 1) a node that starts with belief 0 does not
send a vote to itself, so its round-0 buffer holds the peer votes
`[0, 0, 1]` — only 2 numeric votes equal to 0, not the claimed 3, which
is below N − F = 3 — and its run ends with the fallback
`x = 1, decided = true, k = 2`, not with `x = 0, k = 0`. -/
theorem claim_C6_counterexample :
    countEq (envScenarioAZero.sched 0) Value.zero = 2 ∧
    ¬ (4 - 1 ≤ countEq (envScenarioAZero.sched 0) Value.zero) ∧
    (start 0 4 1 false (initState false Value.zero) envScenarioAZero).state =
      { killed := false, x := some Value.one, decided := some true, k := some 2 } := by
  refine ⟨rfl, by decide, rfl⟩

/-- C6 amended: in scenario A the round-0 tally yields belief 0 for
every node (each sees a strict majority of `0`s among its three peers'
votes), but only the node that started with belief 1 receives three `0`
votes (3 ≥ N − F = 3) and decides `x = 0, decided = true, k = 0`; a node
that started with belief 0 receives just two `0` votes (2 < 3), does not
decide in round 0, and — with the decided node silent in round 1 — ends
in the cap fallback `x = 1, decided = true, k = 2`. -/
theorem claim_C6 :
    (∀ c : Bool, tallyBelief [Value.zero, Value.zero, Value.one] c = Value.zero) ∧
    (∀ c : Bool, tallyBelief [Value.zero, Value.zero, Value.zero] c = Value.zero) ∧
    countEq (envScenarioAOne.sched 0) Value.zero = 3 ∧
    (start 3 4 1 false (initState false Value.one) envScenarioAOne).state =
      { killed := false, x := some Value.zero, decided := some true, k := some 0 } ∧
    countEq (envScenarioAZero.sched 0) Value.zero = 2 ∧
    (start 0 4 1 false (initState false Value.zero) envScenarioAZero).state =
      { killed := false, x := some Value.one, decided := some true, k := some 2 } := by
  refine ⟨?_, ?_, rfl, rfl, rfl, rfl⟩
  · intro c
    rfl
  · intro c
    rfl

/-- C8 as stated is refuted: on a faulty (but not killed) node the
`/message` route acknowledges with `received` — not a non-participation
report — and appends the vote to the buffer, and the `/stop` route flips
`killed` from `false` to `true`, advancing the node's state. -/
theorem claim_C8_counterexample :
    (message (initState true Value.one) [] 0 Value.zero).1 = MessageResponse.received ∧
    (message (initState true Value.one) [] 0 Value.zero).2 = [(0, Value.zero)] ∧
    (initState true Value.one).killed = false ∧
    (stop (initState true Value.one)).2.killed = true := by
  refine ⟨rfl, rfl, rfl, rfl⟩

/-- C8 amended: only the `/start` route checks faultiness: a faulty,
non-killed node's `/start` reports non-participation, broadcasts
nothing, and leaves belief, decided flag and round counter null (it
never tallies or decides); but `/stop` behaves as on any node (it sets
`killed` and acknowledges) and `/message` on a faulty non-killed node
acknowledges and appends the vote to the buffer. -/
theorem claim_C8 (nodeId N F : Nat) (st : NodeState) (env : Env) (buf : VoteBuffer)
    (s : Nat) (v : Value) (hk : st.killed = false) :
    start nodeId N F true st env =
      { resp := StartResponse.faultyNotParticipating
      , state := { killed := false, x := none, decided := none, k := none }
      , sent := [] } ∧
    message st buf s v = (MessageResponse.received, buf ++ [(s, v)]) ∧
    (stop st).2 = stopState := by
  refine ⟨?_, ?_, rfl⟩
  · simp [start, hk]
  · simp [message, hk]

/-- Witness for C8 at a concrete faulty, non-killed node. -/
theorem claim_C8_witness :
    start 0 4 1 true (initState true Value.one) envEmpty =
      { resp := StartResponse.faultyNotParticipating
      , state := { killed := false, x := none, decided := none, k := none }
      , sent := [] } ∧
    message (initState true Value.one) [] 0 Value.zero =
      (MessageResponse.received, [] ++ [(0, Value.zero)]) ∧
    (stop (initState true Value.one)).2 = stopState :=
  claim_C8 0 4 1 (initState true Value.one) envEmpty [] 0 Value.zero rfl

/-- No broadcast message of a round is addressed to the sender itself:
the recipient list is `range N` with `nodeId` filtered out. -/
lemma broadcastMsgs_not_self (nodeId N r : Nat) (x : Option Value) :
    ((broadcastMsgs nodeId N r x).all (fun m => m.recipient != nodeId)) = true := by
  simp only [broadcastMsgs, List.all_eq_true, List.mem_map, List.mem_filter]
  rintro m ⟨i, ⟨_, hi⟩, rfl⟩
  exact hi

/-- Every message dispatched by the round loop avoids the sender
itself. -/
lemma roundsLoop_sent_not_self (nodeId N F : Nat) (env : Env) :
    ∀ (rounds : List Nat) (st : NodeState),
      (((roundsLoop nodeId N F env rounds st).2).all
        (fun m => m.recipient != nodeId)) = true := by
  intro rounds
  induction rounds with
  | nil =>
    intro st
    rfl
  | cons r rest ih =>
    intro st
    by_cases hkill : st.killed = true
    · simp [roundsLoop, hkill]
    · by_cases hdec : N - F ≤ countEq (env.sched r) (tallyBelief (env.sched r) (env.coin r))
      · simp [roundsLoop, hkill, hdec, broadcastMsgs_not_self]
      · simp [roundsLoop, hkill, hdec, List.all_append, broadcastMsgs_not_self]
        intro x hx
        have h := List.all_eq_true.mp (ih _) x hx
        simpa using h

/-- The final state of the round loop does not depend on the belief the
node entered the loop with: round 0's tally overwrites it before it is
ever read (only broadcasts read it). -/
lemma roundsLoop_x_indep (nodeId N F : Nat) (env : Env) (r : Nat) (rest : List Nat)
    (x₁ x₂ : Option Value) (d : Option Bool) (k0 : Option Nat) :
    (roundsLoop nodeId N F env (r :: rest)
      { killed := false, x := x₁, decided := d, k := k0 }).1 =
    (roundsLoop nodeId N F env (r :: rest)
      { killed := false, x := x₂, decided := d, k := k0 }).1 := by
  by_cases hs : env.stopDuring r <;>
  by_cases hdec : N - F ≤ countEq (env.sched r) (tallyBelief (env.sched r) (env.coin r)) <;>
  simp [roundsLoop, hs, hdec]

/-- C10: a node never sends a vote message to itself during broadcast,
and the outcome of its run (final belief, decided flag and round) is
computed only from the votes received from its peers: two feasible runs
that differ only in the node's own initial belief end in the same
state. -/
theorem claim_C10 (nodeId N F : Nat) (env : Env) (a b : Value)
    (d : Option Bool) (k0 : Option Nat) (hF : 2 * F ≤ N) :
    (((start nodeId N F false { killed := false, x := some a, decided := d, k := k0 }
        env).sent).all (fun m => m.recipient != nodeId)) = true ∧
    (start nodeId N F false { killed := false, x := some a, decided := d, k := k0 }
        env).state =
      (start nodeId N F false { killed := false, x := some b, decided := d, k := k0 }
        env).state := by
  have hnotlt : ¬ (N < 2 * F) := Nat.not_lt.mpr hF
  constructor
  · by_cases hd : (roundsLoop nodeId N F env (List.range MAX_STEPS)
        { killed := false, x := some a, decided := d, k := k0 }).1.decided = some true
    · rw [start_run_decided nodeId N F _ env rfl hF hd]
      exact roundsLoop_sent_not_self nodeId N F env _ _
    · rw [start_run_fallback nodeId N F _ env rfl hF hd]
      exact roundsLoop_sent_not_self nodeId N F env _ _
  · have hx := roundsLoop_x_indep nodeId N F env 0 [1] (some a) (some b) d k0
    have hr : List.range MAX_STEPS = 0 :: [1] := rfl
    simp only [start, hnotlt, hr, if_false, Bool.false_eq_true]
    rw [hx]
    by_cases hdec : (roundsLoop nodeId N F env [0, 1]
        { killed := false, x := some b, decided := d, k := k0 }).1.decided ≠ some true
    · simp [hdec]
    · simp [hdec]

/-- Witness for C10 at a concrete feasible configuration. -/
theorem claim_C10_witness :
    (((start 0 2 1 false
        { killed := false, x := some Value.zero, decided := some false, k := some 0 }
        envEmpty).sent).all (fun m => m.recipient != 0)) = true ∧
    (start 0 2 1 false
        { killed := false, x := some Value.zero, decided := some false, k := some 0 }
        envEmpty).state =
      (start 0 2 1 false
        { killed := false, x := some Value.one, decided := some false, k := some 0 }
        envEmpty).state :=
  claim_C10 0 2 1 envEmpty Value.zero Value.one (some false) (some 0) (by decide)

/-- Witness for C7 at a concrete killed node and non-empty buffer. -/
theorem claim_C7_witness :
    (message stopState [(0, Value.one)] 1 Value.zero).1 = MessageResponse.stoppedError ∧
    (message stopState [(0, Value.one)] 1 Value.zero).2 = [(0, Value.one)] ∧
    ∀ r, messagesForRound (message stopState [(0, Value.one)] 1 Value.zero).2 r =
      messagesForRound [(0, Value.one)] r :=
  claim_C7 stopState [(0, Value.one)] 1 Value.zero rfl

end BenOr
